import Mathlib

set_option autoImplicit false

/-!
Shallow embedding of the Registry Lens core: the Docker/OCI registry client
(`src/services/registryApi.js`), the TTL cache (`src/services/imageCache.js`)
and the orchestration layer (`src/composables/useRegistry.js`).

JavaScript objects are modelled as structures with `Option` fields for
properties that may be absent; JavaScript exceptions as `Except String`;
network calls as explicit environments of fetch outcomes.  Sizes and clock
values are natural numbers.
-/

namespace RegistryLens

/-- JS `a || b` on an optional string: the empty string is falsy, so
`a || b` yields `b` whenever `a` is absent or `""`. -/
def jsOrS : Option String → Option String → Option String
  | some s, b => if s = "" then b else some s
  | none, b => b

/-- JS truthiness of an optional string (`undefined`, `null` and `""` are falsy). -/
def strTruthy : Option String → Bool
  | some s => s != ""
  | none => false

/-- Whether an `Except` outcome is a failure (a rejected promise / thrown error). -/
def isErr {ε α : Type} : Except ε α → Bool
  | .error _ => true
  | .ok _ => false

/-- A `platform` object of a manifest-list entry or of a config blob.
`osVersion` models the JS property `os.version`. -/
structure Platform where
  os : Option String := none
  architecture : Option String := none
  variant : Option String := none
  osVersion : Option String := none
  deriving Repr, DecidableEq

/-- A layer descriptor of a single-platform manifest (only its size matters here). -/
structure Layer where
  size : Option Nat := none
  deriving Repr, DecidableEq

/-- The `config` descriptor of a single-platform manifest. -/
structure ConfigDescriptor where
  digest : Option String := none
  size : Option Nat := none
  deriving Repr, DecidableEq

/-- One entry of a manifest list: a sub-manifest reference. -/
structure ManifestEntry where
  platform : Option Platform := none
  digest : String := ""
  size : Option Nat := none
  deriving Repr, DecidableEq

/-- A manifest document: either single-platform (`layers` + `config`) or a
manifest list (`manifests`).  All fields may be absent. -/
structure Manifest where
  mediaType : Option String := none
  manifests : Option (List ManifestEntry) := none
  layers : Option (List Layer) := none
  config : Option ConfigDescriptor := none
  deriving Repr, DecidableEq

/-- An image config blob, fetched by digest. -/
structure Config where
  created : Option String := none
  architecture : Option String := none
  os : Option String := none
  author : Option String := none
  docker_version : Option String := none
  variant : Option String := none
  osVersion : Option String := none
  platform : Option Platform := none
  deriving Repr, DecidableEq

/-- A platform descriptor of the resolved Image Info. -/
structure PlatformDesc where
  os : Option String := none
  architecture : Option String := none
  variant : Option String := none
  digest : Option String := none
  size : Option Nat := none
  deriving Repr, DecidableEq

/-- The resolved, unified Image Info returned by `getImageInfo`. -/
structure ImageInfo where
  manifest : Manifest
  config : Option Config
  totalSize : Nat
  platforms : List PlatformDesc
  isMultiPlatform : Bool
  created : Option String
  architecture : Option String
  os : Option String
  author : Option String
  dockerVersion : Option String
  firstManifest : Option Manifest
  deriving Repr, DecidableEq

/-- The network environment seen by `getImageInfo`: the outcome of fetching a
manifest (by tag or digest reference) and of fetching a config blob. -/
structure FetchEnv where
  fetchManifest : String → String → Except String Manifest
  fetchBlob : String → String → Except String Config

namespace RegistryApi

/-- The two known manifest-list / image-index media types (`registryApi.js`). -/
def listMediaTypes : List String :=
  ["application/vnd.docker.distribution.manifest.list.v2+json",
   "application/vnd.oci.image.index.v1+json"]

/-- `isManifestList(manifest)` from `registryApi.js`: known list media type, or
(`manifest.manifests && !manifest.layers`) a `manifests` array with no `layers`
array.  A present array is truthy in JS even when empty. -/
def isManifestList (manifest : Manifest) : Bool :=
  (match manifest.mediaType with
   | some mt => listMediaTypes.contains mt
   | none => false)
  || (manifest.manifests.isSome && manifest.layers.isNone)

/-- The platform extraction of the manifest-list branch of `getImageInfo`:
`manifest.manifests?.filter(m => m.platform).map(...) || []`. -/
def listPlatforms (manifest : Manifest) : List PlatformDesc :=
  (manifest.manifests.getD []).filterMap fun m =>
    m.platform.map fun p =>
      { os := p.os
        architecture := p.architecture
        variant := jsOrS p.variant none
        digest := some m.digest
        size := m.size }

/-- The total-size computation of the manifest-list branch:
`manifest.manifests?.reduce((sum, m) => sum + (m.size || 0), 0) || 0`. -/
def listTotalSize (manifest : Manifest) : Nat :=
  (manifest.manifests.getD []).foldl (fun sum m => sum + m.size.getD 0) 0

/-- The best-effort sub-fetch of the manifest-list branch: fetch the first
platform sub-manifest and, when it declares a config digest, its config blob.
Any failure is caught (`catch (e) ... console.warn`), leaving both results null. -/
def fetchFirstPlatform (repository : String) (env : FetchEnv)
    (platforms : List PlatformDesc) : Option Config × Option Manifest :=
  match platforms.head? with
  | none => (none, none)
  | some p =>
    let firstDigest := p.digest.getD "undefined"
    let attempt : Except String (Option Config × Manifest) := do
      let platformManifest ← env.fetchManifest repository firstDigest
      let config ←
        if strTruthy (platformManifest.config.bind (·.digest)) then
          Except.map some
            (env.fetchBlob repository ((platformManifest.config.bind (·.digest)).getD ""))
        else
          pure none
      pure (config, platformManifest)
    match attempt with
    | .ok (config, platformManifest) => (config, some platformManifest)
    | .error _ => (none, none)

/-- The total-size computation of the single-platform branch: the sum of all
layer sizes plus the declared config size when present. -/
def singleTotalSize (manifest : Manifest) : Nat :=
  (match manifest.layers with
   | some layers => layers.foldl (fun sum layer => sum + layer.size.getD 0) 0
   | none => 0)
  + (manifest.config.bind (·.size)).getD 0

/-- The best-effort config-blob fetch of the single-platform branch; failure is
caught and leaves the config null. -/
def fetchSingleConfig (repository : String) (env : FetchEnv)
    (manifest : Manifest) : Option Config :=
  if strTruthy (manifest.config.bind (·.digest)) then
    match env.fetchBlob repository ((manifest.config.bind (·.digest)).getD "") with
    | .ok config => some config
    | .error _ => none
  else none

/-- The platform derivation of the single-platform branch:
`platformData = config.platform || config`, then each field falls back to the
top-level config field, and variant further to `platformData['os.version']`. -/
def singlePlatforms (config : Option Config) : List PlatformDesc :=
  match config with
  | none => []
  | some cfg =>
    let platformData : Platform :=
      match cfg.platform with
      | some p => p
      | none =>
        { os := cfg.os, architecture := cfg.architecture
          variant := cfg.variant, osVersion := cfg.osVersion }
    [{ os := jsOrS platformData.os cfg.os
       architecture := jsOrS platformData.architecture cfg.architecture
       variant := jsOrS platformData.variant (jsOrS cfg.variant (jsOrS platformData.osVersion none))
       digest := none
       size := none }]

/-- `getImageInfo(repository, tag)` from `registryApi.js`: fetch the manifest,
then resolve either the manifest-list branch or the single-platform branch.
Only the initial manifest fetch can fail; both sub-fetches are caught locally. -/
def getImageInfo (repository tag : String) (env : FetchEnv) :
    Except String ImageInfo := do
  let manifest ← env.fetchManifest repository tag
  if isManifestList manifest then
    let platforms := listPlatforms manifest
    let totalSize := listTotalSize manifest
    let fetched := fetchFirstPlatform repository env platforms
    let config := fetched.1
    pure
      { manifest := manifest
        config := config
        totalSize := totalSize
        platforms := platforms
        isMultiPlatform := true
        created := jsOrS (config.bind (·.created)) none
        architecture := jsOrS (platforms.head?.bind (·.architecture))
          (jsOrS (config.bind (·.architecture)) none)
        os := jsOrS (platforms.head?.bind (·.os)) (jsOrS (config.bind (·.os)) none)
        author := jsOrS (config.bind (·.author)) none
        dockerVersion := jsOrS (config.bind (·.docker_version)) none
        firstManifest := fetched.2 }
  else
    let totalSize := singleTotalSize manifest
    let config := fetchSingleConfig repository env manifest
    let platforms := singlePlatforms config
    pure
      { manifest := manifest
        config := config
        totalSize := totalSize
        platforms := platforms
        isMultiPlatform := false
        created := jsOrS (config.bind (·.created)) none
        architecture := jsOrS (config.bind (·.architecture)) none
        os := jsOrS (config.bind (·.os)) none
        author := jsOrS (config.bind (·.author)) none
        dockerVersion := jsOrS (config.bind (·.docker_version)) none
        firstManifest := none }

/-- An observable event of the throttled drain loop: executing the queued task
with a given id, or waiting the fixed `REQUEST_DELAY` (100ms) pause. -/
inductive QEvent where
  | exec (id : Nat)
  | delay
  deriving Repr, DecidableEq

/-- `processQueue` from `registryApi.js`, as a trace semantics.  Each queued
entry is `(id, outcome)`: the submission id and the outcome `requestFn()` will
produce.  The loop shifts the head, executes it, settles that caller promise
with the task own outcome (`resolve`/`reject`), and waits the fixed delay only
when the queue is still non-empty.  It returns the event trace and the settled
promises in settlement order. -/
def processQueue :
    List (Nat × Except String Nat) → List QEvent × List (Nat × Except String Nat)
  | [] => ([], [])
  | (id, outcome) :: rest =>
    let later := processQueue rest
    (QEvent.exec id :: (if rest.isEmpty then [] else [QEvent.delay]) ++ later.1,
     (id, outcome) :: later.2)

/-- The trace the throttler contract demands: tasks in FIFO submission order
with one delay strictly between consecutive tasks and none after the last. -/
def fifoTrace : List Nat → List QEvent
  | [] => []
  | [id] => [QEvent.exec id]
  | id :: rest :: more => QEvent.exec id :: QEvent.delay :: fifoTrace (rest :: more)

/-- The catalog page size used by `getAllRepositories` (`pageSize = 100`). -/
def pageSize : Nat := 100

/-- The do-while pagination loop of `getAllRepositories`.  `env last` is the
`repositories` array of the catalog page for cursor `last`; the loop pushes
each non-empty page, sets the cursor to the page last name exactly when the
page is full, and stops otherwise.  Fuel bounds the recursion; the result also
counts the throttled catalog calls made. -/
def getAllReposLoop (env : String → List String) :
    Nat → String → List String × Nat
  | 0, _ => ([], 0)
  | fuel + 1, last =>
    let result := env last
    let newLast :=
      if result.length != 0 then
        if result.length = pageSize then result.getLastD "" else ""
      else ""
    if newLast != "" then
      let later := getAllReposLoop env fuel newLast
      (result ++ later.1, later.2 + 1)
    else (result, 1)

/-- `getAllRepositories()`: run the pagination loop from the empty cursor. -/
def getAllRepositories (env : String → List String) (fuel : Nat) :
    List String × Nat :=
  getAllReposLoop env fuel ""

/-- A mock catalog endpoint over a fixed repository list: the page for cursor
`last` is the first `n` names after `last` (all names when the cursor is empty). -/
def takeAfter : List String → String → List String
  | [], _ => []
  | x :: xs, last => if x = last then xs else takeAfter xs last

/-- One catalog page of size `n` for cursor `last`, drawn from `all`. -/
def catalogFromList (all : List String) (n : Nat) (last : String) : List String :=
  (if last = "" then all else takeAfter all last).take n

/-- A mock registry of 237 repositories, so the catalog pages have sizes
[100, 100, 37]. -/
def mockRegistry : List String := (List.range 237).map (fun i => "repo" ++ toString i)

end RegistryApi

namespace ImageCache

/-- `CACHE_PREFIX` from `imageCache.js`. -/
def CACHE_PREFIX : String := "registry_lens_cache:"

/-- `CACHE_TTL` from `imageCache.js`: 24 hours in milliseconds. -/
def CACHE_TTL : Nat := 24 * 60 * 60 * 1000

/-- A persisted cache document: `{value, timestamp}`. -/
structure CacheEntry (α : Type) where
  value : α
  timestamp : Nat
  deriving Repr, DecidableEq

/-- The backing storage (localStorage restricted to one value type): a map
from string keys to stored documents. -/
def Store (α : Type) : Type := String → Option (CacheEntry α)

/-- An empty backing storage. -/
def emptyStore {α : Type} : Store α := fun _ => none

/-- `localStorage.getItem`. -/
def getItem {α : Type} (s : Store α) (key : String) : Option (CacheEntry α) :=
  s key

/-- `localStorage.setItem`: replaces any entry under the key. -/
def setItem {α : Type} (s : Store α) (key : String) (e : CacheEntry α) : Store α :=
  fun k => if k = key then some e else s k

/-- `localStorage.removeItem`. -/
def removeItem {α : Type} (s : Store α) (key : String) : Store α :=
  fun k => if k = key then none else s k

/-- `ImageCache.getKey(type, identifier)`: the namespaced cache key. -/
def getKey (type identifier : String) : String :=
  CACHE_PREFIX ++ type ++ ":" ++ identifier

/-- The shared body of `saveImageInfo`/`saveTags`/`saveRepositories`: wrap the
value with the current timestamp and persist it under the key. -/
def cacheSave {α : Type} (s : Store α) (key : String) (v : α) (now : Nat) : Store α :=
  setItem s key { value := v, timestamp := now }

/-- The shared body of `getImageInfo`/`getTags`/`getRepositories`: a missing
key is a miss; an entry older than `CACHE_TTL` is deleted from storage at the
moment of the check and reported as a miss; otherwise the value is returned.
The second component is the storage after the read (eviction side effect). -/
def cacheGet {α : Type} (s : Store α) (key : String) (now : Nat) :
    Option α × Store α :=
  match getItem s key with
  | none => (none, s)
  | some data =>
    if now - data.timestamp > CACHE_TTL then (none, removeItem s key)
    else (some data.value, s)

/-- `ImageCache.saveTags`. -/
def saveTags (s : Store (List String)) (repository : String)
    (tags : List String) (now : Nat) : Store (List String) :=
  cacheSave s (getKey "tags" repository) tags now

/-- `ImageCache.getTags`. -/
def getTags (s : Store (List String)) (repository : String) (now : Nat) :
    Option (List String) × Store (List String) :=
  cacheGet s (getKey "tags" repository) now

/-- `ImageCache.saveImageInfo`. -/
def saveImageInfo (s : Store ImageInfo) (repository tag : String)
    (info : ImageInfo) (now : Nat) : Store ImageInfo :=
  cacheSave s (getKey "image_info" (repository ++ ":" ++ tag)) info now

/-- `ImageCache.getImageInfo`. -/
def getImageInfo (s : Store ImageInfo) (repository tag : String) (now : Nat) :
    Option ImageInfo × Store ImageInfo :=
  cacheGet s (getKey "image_info" (repository ++ ":" ++ tag)) now

/-- `ImageCache.saveRepositories`. -/
def saveRepositories (s : Store (List String)) (repositories : List String)
    (now : Nat) : Store (List String) :=
  cacheSave s (getKey "repositories" "list") repositories now

/-- `ImageCache.getRepositories`. -/
def getRepositories (s : Store (List String)) (now : Nat) :
    Option (List String) × Store (List String) :=
  cacheGet s (getKey "repositories" "list") now

end ImageCache

namespace UseRegistry

open ImageCache

/-- Credentials as held by the credential store and the registry client. -/
structure Creds where
  registryUrl : String
  username : Option String := none
  password : Option String := none
  deriving Repr, DecidableEq

/-- The reactive state of `useRegistry.js` together with the credential state
of `registryApi`/`credentialStore`: `apiCreds` is `registryApi.credentials`,
`storeCreds` what the credential store persists. -/
structure RegState where
  apiCreds : Option Creds
  storeCreds : Option Creds
  isInitializing : Bool
  isConnected : Bool
  isLoading : Bool
  error : Option String
  repositories : List String
  registryUrl : Option String
  storageInfo : Option String
  deriving Repr, DecidableEq

/-- The environment of a connect/reconnect attempt: the outcome of persisting
credentials, of the reachability ping `request('/')`, of fetching the full
catalog, and the current clock. -/
structure ConnectEnv where
  saveResult : Except String String
  ping : Except String Unit
  fetchAllRepos : Except String (List String)
  now : Nat

/-- `registryApi.testConnection()`: catches the ping error and reports
`{success, error}` instead of throwing. -/
def testConnection (env : ConnectEnv) : Bool × Option String :=
  match env.ping with
  | .ok _ => (true, none)
  | .error e => (false, some e)

/-- The result object of `connect`. -/
structure ConnectResult where
  success : Bool
  error : Option String
  storageMethod : Option String
  deriving Repr, DecidableEq

/-- `loadRepositories()` from `useRegistry.js`: cache-first read-through into
the repositories namespace; a fetch error is caught and stored in
`state.error`. -/
def loadRepositories (env : ConnectEnv) (s : RegState)
    (cache : Store (List String)) : RegState × Store (List String) :=
  let s := { s with isLoading := true, error := none }
  let read := ImageCache.getRepositories cache env.now
  match read.1 with
  | some repos => ({ s with repositories := repos, isLoading := false }, read.2)
  | none =>
    match env.fetchAllRepos with
    | .ok repos =>
      ({ s with repositories := repos, isLoading := false },
       ImageCache.saveRepositories read.2 repos env.now)
    | .error e => ({ s with error := some e, isLoading := false }, read.2)

/-- `connect(registryUrl, username, password)` from `useRegistry.js`: save the
credentials, verify reachability, populate the repository list on success, and
on any failure store the error, clear the saved credentials and report
failure. -/
def connect (registryUrl : String) (username password : Option String)
    (env : ConnectEnv) (s : RegState) (cache : Store (List String)) :
    RegState × Store (List String) × ConnectResult :=
  let s := { s with isLoading := true, error := none }
  let creds : Creds :=
    { registryUrl := registryUrl, username := username, password := password }
  let s := { s with apiCreds := some creds }
  match env.saveResult with
  | .error e =>
    ({ s with
        error := some e
        registryUrl := none
        apiCreds := none
        storeCreds := none
        isLoading := false },
     cache,
     { success := false, error := some e, storageMethod := none })
  | .ok method =>
    let s := { s with storeCreds := some creds, storageInfo := some method }
    let result := testConnection env
    if result.1 then
      let s := { s with isConnected := true, registryUrl := some registryUrl }
      let loaded := loadRepositories env s cache
      ({ loaded.1 with isLoading := false }, loaded.2,
       { success := true, error := none, storageMethod := some method })
    else
      ({ s with
          error := result.2
          registryUrl := none
          apiCreds := none
          storeCreds := none
          isLoading := false },
       cache,
       { success := false, error := result.2, storageMethod := none })

/-- `reconnect()` from `useRegistry.js`: load stored credentials; when absent
report not-connected; otherwise verify reachability and populate state.  A
failed verification only reports `false` — the stored credentials are left in
place. -/
def reconnect (env : ConnectEnv) (s : RegState) (cache : Store (List String)) :
    RegState × Store (List String) × Bool :=
  let s := { s with apiCreds := s.storeCreds }
  match s.apiCreds with
  | none => ({ s with isInitializing := false }, cache, false)
  | some creds =>
    let s := { s with isLoading := true, error := none }
    let result := testConnection env
    if result.1 then
      let s := { s with isConnected := true, registryUrl := some creds.registryUrl }
      let loaded := loadRepositories env s cache
      ({ loaded.1 with isLoading := false, isInitializing := false }, loaded.2, true)
    else
      ({ s with isLoading := false, isInitializing := false }, cache, false)

/-- The `{tags: [...]}` response of the tags endpoint. -/
structure TagsResponse where
  tags : Option (List String) := none
  deriving Repr, DecidableEq

/-- Lookup in the reactive maps (`state.tags`, `state.imageInfos`), modelled
as association lists. -/
def lookupAssoc {β : Type} : List (String × β) → String → Option β
  | [], _ => none
  | (k, v) :: rest, key => if k = key then some v else lookupAssoc rest key

/-- `loadTags(repository)` from `useRegistry.js`: in-memory state first, then
the TTL cache, then one throttled fetch; a fetch error is caught, the state
entry becomes `[]` and `[]` is returned — nothing is written to the cache.
The final component counts the registry calls issued. -/
def loadTags (repository : String) (fetchTags : Except String TagsResponse)
    (now : Nat) (stateTags : List (String × List String))
    (cache : Store (List String)) :
    Except String (List String) × List (String × List String)
      × Store (List String) × Nat :=
  match lookupAssoc stateTags repository with
  | some ts => (.ok ts, stateTags, cache, 0)
  | none =>
    let read := ImageCache.getTags cache repository now
    match read.1 with
    | some ts => (.ok ts, (repository, ts) :: stateTags, read.2, 0)
    | none =>
      match fetchTags with
      | .ok response =>
        let ts := response.tags.getD []
        (.ok ts, (repository, ts) :: stateTags,
         ImageCache.saveTags read.2 repository ts now, 1)
      | .error _ =>
        (.ok [], (repository, []) :: stateTags, read.2, 1)

/-- `loadImageInfo(repository, tag)` from `useRegistry.js`: in-memory state
first, then the TTL cache, then one resolution through
`RegistryApi.getImageInfo`; an error is caught and `null` returned — nothing
is written to the cache.  The final component counts the registry resolutions
issued. -/
def loadImageInfo (repository tag : String) (fenv : FetchEnv) (now : Nat)
    (stateInfos : List (String × ImageInfo))
    (stateManifests : List (String × Manifest)) (cache : Store ImageInfo) :
    Except String (Option ImageInfo) × List (String × ImageInfo)
      × List (String × Manifest) × Store ImageInfo × Nat :=
  let key := repository ++ ":" ++ tag
  match lookupAssoc stateInfos key with
  | some info => (.ok (some info), stateInfos, stateManifests, cache, 0)
  | none =>
    let read := ImageCache.getImageInfo cache repository tag now
    match read.1 with
    | some info =>
      (.ok (some info), (key, info) :: stateInfos,
       (key, info.manifest) :: stateManifests, read.2, 0)
    | none =>
      match RegistryApi.getImageInfo repository tag fenv with
      | .ok info =>
        (.ok (some info), (key, info) :: stateInfos,
         (key, info.manifest) :: stateManifests,
         ImageCache.saveImageInfo read.2 repository tag info now, 1)
      | .error _ =>
        (.ok none, stateInfos, stateManifests, read.2, 1)

end UseRegistry

/-! Concrete fixtures used by the witnesses and counterexamples. -/

/-- A single-platform manifest with layer sizes [10, 20, 30] and config size 5. -/
def mSingle : Manifest :=
  { mediaType := some "application/vnd.docker.distribution.manifest.v2+json"
    manifests := none
    layers := some [{ size := some 10 }, { size := some 20 }, { size := some 30 }]
    config := some { digest := none, size := some 5 } }

/-- An environment serving `mSingle` for every manifest reference and no blobs. -/
def envSingle : FetchEnv :=
  { fetchManifest := fun _ _ => .ok mSingle
    fetchBlob := fun _ _ => .error "Resource not found" }

/-- The Image Info `getImageInfo` resolves for `mSingle` under `envSingle`. -/
def infoSingle : ImageInfo :=
  { manifest := mSingle
    config := none
    totalSize := 65
    platforms := []
    isMultiPlatform := false
    created := none
    architecture := none
    os := none
    author := none
    dockerVersion := none
    firstManifest := none }

/-- A manifest-list entry for linux/amd64 of size 100. -/
def entryAmd : ManifestEntry :=
  { platform := some { os := some "linux", architecture := some "amd64" }
    digest := "sha256:aaa"
    size := some 100 }

/-- A manifest-list entry for linux/arm64 of size 150. -/
def entryArm : ManifestEntry :=
  { platform := some { os := some "linux", architecture := some "arm64" }
    digest := "sha256:bbb"
    size := some 150 }

/-- A manifest-list entry of size 150 that carries no `platform` field. -/
def entryNoPlat : ManifestEntry :=
  { platform := none, digest := "sha256:ccc", size := some 150 }

/-- An OCI image index with two platform entries of sizes [100, 150]. -/
def mList : Manifest :=
  { mediaType := some "application/vnd.oci.image.index.v1+json"
    manifests := some [entryAmd, entryArm] }

/-- An environment serving `mList` for the tag reference only: every digest
sub-fetch and blob fetch fails. -/
def envList : FetchEnv :=
  { fetchManifest := fun _ reference =>
      if reference = "latest" then .ok mList else .error "Resource not found"
    fetchBlob := fun _ _ => .error "Resource not found" }

/-- The Image Info `getImageInfo` resolves for `mList` under `envList`. -/
def infoList : ImageInfo :=
  { manifest := mList
    config := none
    totalSize := 250
    platforms :=
      [{ os := some "linux", architecture := some "amd64"
         digest := some "sha256:aaa", size := some 100 },
       { os := some "linux", architecture := some "arm64"
         digest := some "sha256:bbb", size := some 150 }]
    isMultiPlatform := true
    created := none
    architecture := some "amd64"
    os := some "linux"
    author := none
    dockerVersion := none
    firstManifest := none }

/-- A Docker manifest list with one platform entry and one entry lacking a
`platform` field (sizes 100 and 150). -/
def mListDropped : Manifest :=
  { mediaType := some "application/vnd.docker.distribution.manifest.list.v2+json"
    manifests := some [entryAmd, entryNoPlat] }

/-- An environment serving `mListDropped` for the tag reference only. -/
def envDropped : FetchEnv :=
  { fetchManifest := fun _ reference =>
      if reference = "latest" then .ok mListDropped else .error "Resource not found"
    fetchBlob := fun _ _ => .error "Resource not found" }

/-- The Image Info `getImageInfo` resolves for `mListDropped` under `envDropped`. -/
def infoDropped : ImageInfo :=
  { manifest := mListDropped
    config := none
    totalSize := 250
    platforms :=
      [{ os := some "linux", architecture := some "amd64"
         digest := some "sha256:aaa", size := some 100 }]
    isMultiPlatform := true
    created := none
    architecture := some "amd64"
    os := some "linux"
    author := none
    dockerVersion := none
    firstManifest := none }

/-- A manifest that has both a list media type and a `layers` array. -/
def mIndexWithLayers : Manifest :=
  { mediaType := some "application/vnd.oci.image.index.v1+json"
    layers := some [{ size := some 10 }] }

/-- Credentials as a registry user would have stored them. -/
def credsSaved : UseRegistry.Creds :=
  { registryUrl := "https://registry.example.com"
    username := some "alice"
    password := some "secret" }

/-- A disconnected state whose credential store still holds `credsSaved`. -/
def stateWithStored : UseRegistry.RegState :=
  { apiCreds := none
    storeCreds := some credsSaved
    isInitializing := true
    isConnected := false
    isLoading := false
    error := none
    repositories := []
    registryUrl := none
    storageInfo := none }

/-- A connect environment whose registry is unreachable: saving credentials
works, the reachability ping fails. -/
def envDown : UseRegistry.ConnectEnv :=
  { saveResult := .ok "session-storage"
    ping := .error "Authentication failed. Check your credentials."
    fetchAllRepos := .error "Authentication failed. Check your credentials."
    now := 0 }

/-- A fetch environment where every registry call fails. -/
def envOffline : FetchEnv :=
  { fetchManifest := fun _ _ => .error "Registry API error: 503 Service Unavailable"
    fetchBlob := fun _ _ => .error "Registry API error: 503 Service Unavailable" }

/-!
Theorems.  Each claim theorem is stated over the definitions above; shared
helper lemmas come first.
-/

/-- Bind of a successful `Except` computation reduces to the continuation. -/
theorem ebind_ok {ε α β : Type} (a : α) (g : α → Except ε β) :
    (Except.ok a : Except ε α) >>= g = g a := rfl

/-- Folding `+ f x` over a list from `n` is `n` plus the sum of the mapped list. -/
theorem foldl_add_map_sum {α : Type} (f : α → Nat) (l : List α) (n : Nat) :
    l.foldl (fun sum x => sum + f x) n = n + (l.map f).sum := by
  induction l generalizing n with
  | nil => simp
  | cons x xs ih => simp [List.foldl_cons, ih, Nat.add_assoc]

/-- C1: on a single-platform manifest, `getImageInfo` succeeds with
`totalSize` equal to the sum of all layer sizes plus the declared config size,
and `isMultiPlatform = false`. -/
theorem getImageInfo_single_spec (repository tag : String) (env : FetchEnv)
    (m : Manifest) (info : ImageInfo)
    (hm : env.fetchManifest repository tag = Except.ok m)
    (hs : RegistryApi.isManifestList m = false)
    (hr : RegistryApi.getImageInfo repository tag env = Except.ok info) :
    info.totalSize
        = ((m.layers.getD []).map (fun layer => layer.size.getD 0)).sum
          + (m.config.bind (·.size)).getD 0
      ∧ info.isMultiPlatform = false := by
  rw [RegistryApi.getImageInfo, hm, ebind_ok, hs] at hr
  simp only [Bool.false_eq_true, if_false] at hr
  have hinfo := (Except.ok.inj hr).symm
  subst hinfo
  refine ⟨?_, rfl⟩
  show RegistryApi.singleTotalSize m = _
  rw [RegistryApi.singleTotalSize]
  cases m.layers with
  | none => simp
  | some layers => simp [foldl_add_map_sum]

/-- C1 witness: with layer sizes [10, 20, 30] and config size 5 the resolved
`totalSize` is 65 and the image is not multi-platform. -/
theorem getImageInfo_single_spec_witness :
    (infoSingle.totalSize
        = ((mSingle.layers.getD []).map (fun layer => layer.size.getD 0)).sum
          + (mSingle.config.bind (·.size)).getD 0
      ∧ infoSingle.isMultiPlatform = false)
    ∧ infoSingle.totalSize = 65 :=
  ⟨getImageInfo_single_spec "library/app" "latest" envSingle mSingle infoSingle
      rfl rfl rfl,
   rfl⟩

/-- The platform list keeps exactly the entries that carry a `platform` field. -/
theorem listPlatforms_length (m : Manifest) :
    (RegistryApi.listPlatforms m).length
      = ((m.manifests.getD []).filter (fun e => e.platform.isSome)).length := by
  rw [RegistryApi.listPlatforms]
  generalize m.manifests.getD [] = l
  induction l with
  | nil => rfl
  | cons e rest ih =>
    cases h : e.platform <;>
      simp [List.filterMap_cons, List.filter_cons, h, ih]

/-- The sizes carried by the platform list are exactly the sizes of the
entries that carry a `platform` field. -/
theorem listPlatforms_sizes (m : Manifest) :
    (RegistryApi.listPlatforms m).map (fun d => d.size.getD 0)
      = ((m.manifests.getD []).filter (fun e => e.platform.isSome)).map
          (fun e => e.size.getD 0) := by
  rw [RegistryApi.listPlatforms]
  generalize m.manifests.getD [] = l
  induction l with
  | nil => rfl
  | cons e rest ih =>
    cases h : e.platform <;>
      simp [List.filterMap_cons, List.filter_cons, h, ih]

/-- A mapped sum over a list splits into the sums over the entries kept and
dropped by a Boolean filter. -/
theorem sum_map_filter_split {α : Type} (p : α → Bool) (f : α → Nat) (l : List α) :
    (l.map f).sum
      = ((l.filter p).map f).sum + ((l.filter (fun x => !p x)).map f).sum := by
  induction l with
  | nil => rfl
  | cons x xs ih =>
    cases h : p x <;> simp [List.filter_cons, h, ih] <;> omega

/-- C2: on a manifest list, `getImageInfo` succeeds with
`isMultiPlatform = true`, `totalSize` the sum of every entry `size` field,
and one platform descriptor per entry that carries a `platform` field. -/
theorem getImageInfo_list_spec (repository tag : String) (env : FetchEnv)
    (m : Manifest) (info : ImageInfo)
    (hm : env.fetchManifest repository tag = Except.ok m)
    (hl : RegistryApi.isManifestList m = true)
    (hr : RegistryApi.getImageInfo repository tag env = Except.ok info) :
    info.isMultiPlatform = true
      ∧ info.totalSize = ((m.manifests.getD []).map (fun e => e.size.getD 0)).sum
      ∧ info.platforms.length
          = ((m.manifests.getD []).filter (fun e => e.platform.isSome)).length := by
  rw [RegistryApi.getImageInfo, hm, ebind_ok, hl] at hr
  simp only [if_true] at hr
  have hinfo := (Except.ok.inj hr).symm
  subst hinfo
  refine ⟨rfl, ?_, ?_⟩
  · show RegistryApi.listTotalSize m = _
    rw [RegistryApi.listTotalSize, foldl_add_map_sum (fun e : ManifestEntry => e.size.getD 0)]
    simp
  · exact listPlatforms_length m

/-- C2 witness: a manifest list with two platform entries of sizes [100, 150]
resolves to `totalSize = 250` and two platform descriptors. -/
theorem getImageInfo_list_spec_witness :
    (infoList.isMultiPlatform = true
      ∧ infoList.totalSize = ((mList.manifests.getD []).map (fun e => e.size.getD 0)).sum
      ∧ infoList.platforms.length
          = ((mList.manifests.getD []).filter (fun e => e.platform.isSome)).length)
    ∧ infoList.totalSize = 250 ∧ infoList.platforms.length = 2 :=
  ⟨getImageInfo_list_spec "library/app" "latest" envList mList infoList rfl rfl rfl,
   rfl, rfl⟩

/-- When every config-blob fetch fails, the best-effort first-platform fetch
never yields a config. -/
theorem fetchFirstPlatform_config_none (repository : String) (env : FetchEnv)
    (platforms : List PlatformDesc)
    (hblob : ∀ d, isErr (env.fetchBlob repository d) = true) :
    (RegistryApi.fetchFirstPlatform repository env platforms).1 = none := by
  rw [RegistryApi.fetchFirstPlatform]
  cases platforms.head? with
  | none => rfl
  | some p =>
    simp only
    cases hf : env.fetchManifest repository (p.digest.getD "undefined") with
    | error e => rfl
    | ok pm =>
      simp only [ebind_ok]
      by_cases hd : strTruthy (pm.config.bind (·.digest)) = true
      · simp only [hd, if_true]
        cases hb : env.fetchBlob repository ((pm.config.bind (·.digest)).getD "") with
        | error s => rfl
        | ok c =>
          have h2 := hblob ((pm.config.bind (·.digest)).getD "")
          rw [hb] at h2
          simp [isErr] at h2
      · simp only [Bool.not_eq_true] at hd
        simp only [hd, Bool.false_eq_true, if_false]
        rfl

/-- C3: on a manifest list whose sub-fetches (first-platform manifest, config
blob) fail, `getImageInfo` still resolves successfully, with `created` and the
other config-derived fields null. -/
theorem getImageInfo_list_degrades (repository tag : String) (env : FetchEnv)
    (m : Manifest)
    (hm : env.fetchManifest repository tag = Except.ok m)
    (hl : RegistryApi.isManifestList m = true)
    (hsub : ∀ d, d ≠ tag → isErr (env.fetchManifest repository d) = true)
    (hblob : ∀ d, isErr (env.fetchBlob repository d) = true) :
    ∃ info, RegistryApi.getImageInfo repository tag env = Except.ok info
      ∧ info.created = none ∧ info.author = none ∧ info.dockerVersion = none
      ∧ info.config = none := by
  have hcfg := fetchFirstPlatform_config_none repository env
    (RegistryApi.listPlatforms m) hblob
  rw [RegistryApi.getImageInfo, hm, ebind_ok, hl]
  simp only [if_true]
  exact ⟨_, rfl, by simp [hcfg, jsOrS], by simp [hcfg, jsOrS],
    by simp [hcfg, jsOrS], by simp [hcfg]⟩

/-- C3 witness: the concrete index `mList` under `envList`, where every
digest sub-fetch and blob fetch fails, still resolves with null metadata. -/
theorem getImageInfo_list_degrades_witness :
    ∃ info, RegistryApi.getImageInfo "library/app" "latest" envList = Except.ok info
      ∧ info.created = none ∧ info.author = none ∧ info.dockerVersion = none
      ∧ info.config = none :=
  getImageInfo_list_degrades "library/app" "latest" envList mList rfl rfl
    (fun d hd => by simp [envList, isErr, hd])
    (fun d => rfl)

/-- C10: entries without a `platform` field are excluded from `platforms`, yet
`totalSize` still counts every entry of the manifests array: it is the sum of
the platform-carrying sizes plus the sum of the dropped entry sizes. -/
theorem getImageInfo_list_counts_dropped (repository tag : String) (env : FetchEnv)
    (m : Manifest) (info : ImageInfo)
    (hm : env.fetchManifest repository tag = Except.ok m)
    (hl : RegistryApi.isManifestList m = true)
    (hr : RegistryApi.getImageInfo repository tag env = Except.ok info) :
    info.platforms.length
        = ((m.manifests.getD []).filter (fun e => e.platform.isSome)).length
      ∧ info.totalSize
        = (info.platforms.map (fun d => d.size.getD 0)).sum
          + (((m.manifests.getD []).filter (fun e => !e.platform.isSome)).map
              (fun e => e.size.getD 0)).sum := by
  rw [RegistryApi.getImageInfo, hm, ebind_ok, hl] at hr
  simp only [if_true] at hr
  have hinfo := (Except.ok.inj hr).symm
  subst hinfo
  refine ⟨listPlatforms_length m, ?_⟩
  show RegistryApi.listTotalSize m = _
  rw [RegistryApi.listTotalSize, foldl_add_map_sum (fun e : ManifestEntry => e.size.getD 0),
    listPlatforms_sizes m,
    sum_map_filter_split (fun e : ManifestEntry => e.platform.isSome)
      (fun e : ManifestEntry => e.size.getD 0)]
  simp

/-- C10 witness: with one platform entry (size 100) and one platform-less
entry (size 150), only one descriptor is produced but `totalSize = 250`. -/
theorem getImageInfo_list_counts_dropped_witness :
    (infoDropped.platforms.length
        = ((mListDropped.manifests.getD []).filter (fun e => e.platform.isSome)).length
      ∧ infoDropped.totalSize
        = (infoDropped.platforms.map (fun d => d.size.getD 0)).sum
          + (((mListDropped.manifests.getD []).filter (fun e => !e.platform.isSome)).map
              (fun e => e.size.getD 0)).sum)
    ∧ infoDropped.totalSize = 250 ∧ infoDropped.platforms.length = 1 :=
  ⟨getImageInfo_list_counts_dropped "library/app" "latest" envDropped mListDropped
      infoDropped rfl rfl rfl,
   rfl, rfl⟩

/-- C4 counterexample: a manifest carrying both a list media type and a
`layers` array is classified as a manifest list, so "false for a manifest with
layers present" does not hold unconditionally. -/
theorem isManifestList_layers_present_counterexample :
    mIndexWithLayers.layers.isSome = true
      ∧ RegistryApi.isManifestList mIndexWithLayers = true :=
  ⟨rfl, rfl⟩

/-- C4 (amended): `isManifestList` is true when the media type is one of the
two known list/index types; true for any manifest with a `manifests` array and
no `layers` array; and false for a manifest with `layers` present whose media
type is not one of the two list types. -/
theorem isManifestList_spec (m : Manifest) :
    ((m.mediaType = some "application/vnd.docker.distribution.manifest.list.v2+json"
        ∨ m.mediaType = some "application/vnd.oci.image.index.v1+json")
      → RegistryApi.isManifestList m = true)
    ∧ (m.manifests.isSome = true → m.layers = none
      → RegistryApi.isManifestList m = true)
    ∧ (m.layers.isSome = true
      → m.mediaType ≠ some "application/vnd.docker.distribution.manifest.list.v2+json"
      → m.mediaType ≠ some "application/vnd.oci.image.index.v1+json"
      → RegistryApi.isManifestList m = false) := by
  refine ⟨?_, ?_, ?_⟩
  · rintro (h | h) <;> rw [RegistryApi.isManifestList, h] <;>
      simp [RegistryApi.listMediaTypes]
  · intro h1 h2
    rw [RegistryApi.isManifestList, h2]
    simp [h1]
  · intro h1 h2 h3
    rw [RegistryApi.isManifestList]
    have hno : m.layers.isNone = false := by
      cases hx : m.layers <;> simp_all
    cases hmt : m.mediaType with
    | none => simp [hno]
    | some mt =>
      have ha : mt ≠ "application/vnd.docker.distribution.manifest.list.v2+json" :=
        fun h => h2 (hmt.trans (congrArg some h))
      have hb : mt ≠ "application/vnd.oci.image.index.v1+json" :=
        fun h => h3 (hmt.trans (congrArg some h))
      simp [RegistryApi.listMediaTypes, ha, hb, hno]

/-- C4 witness: the OCI image index fixture is classified as a manifest list
through the media-type clause. -/
theorem isManifestList_spec_witness : RegistryApi.isManifestList mList = true :=
  (isManifestList_spec mList).1 (Or.inr rfl)

/-- The trace of the drain loop lists the submission ids in FIFO order with a
delay strictly between consecutive executions. -/
theorem processQueue_events : ∀ queue : List (Nat × Except String Nat),
    (RegistryApi.processQueue queue).1 = RegistryApi.fifoTrace (queue.map Prod.fst)
  | [] => rfl
  | [(_, _)] => rfl
  | (id, _) :: (id2, o2) :: rest =>
    congrArg (fun t => RegistryApi.QEvent.exec id :: RegistryApi.QEvent.delay :: t)
      (processQueue_events ((id2, o2) :: rest))

/-- Every queued caller promise settles with its own task outcome, in
submission order. -/
theorem processQueue_settled : ∀ queue : List (Nat × Except String Nat),
    (RegistryApi.processQueue queue).2 = queue
  | [] => rfl
  | (id, o) :: rest => congrArg (List.cons (id, o)) (processQueue_settled rest)

/-- The FIFO trace of `n` tasks contains `n - 1` delay events. -/
theorem fifoTrace_count_delay : ∀ l : List Nat,
    (RegistryApi.fifoTrace l).count RegistryApi.QEvent.delay = l.length - 1
  | [] => rfl
  | [_] => rfl
  | id :: id2 :: rest => by
    have ih := fifoTrace_count_delay (id2 :: rest)
    show (RegistryApi.QEvent.exec id :: RegistryApi.QEvent.delay :: RegistryApi.fifoTrace (id2 :: rest)).count
        RegistryApi.QEvent.delay = _
    simp only [List.count_cons, ih]
    simp

/-- The FIFO trace of a non-empty task list is non-empty. -/
theorem fifoTrace_ne_nil (a : Nat) (l : List Nat) :
    RegistryApi.fifoTrace (a :: l) ≠ [] := by
  cases l <;> simp [RegistryApi.fifoTrace]

/-- The FIFO trace never ends in a delay event. -/
theorem fifoTrace_last_not_delay : ∀ l : List Nat,
    (RegistryApi.fifoTrace l).getLast? ≠ some RegistryApi.QEvent.delay
  | [] => by simp [RegistryApi.fifoTrace]
  | [id] => by simp [RegistryApi.fifoTrace]
  | id :: id2 :: rest => by
    have ih := fifoTrace_last_not_delay (id2 :: rest)
    have hne := fifoTrace_ne_nil id2 rest
    rw [show RegistryApi.fifoTrace (id :: id2 :: rest)
        = RegistryApi.QEvent.exec id :: RegistryApi.QEvent.delay :: RegistryApi.fifoTrace (id2 :: rest) from rfl,
      List.getLast?_cons_cons]
    cases hq : RegistryApi.fifoTrace (id2 :: rest) with
    | nil => exact absurd hq hne
    | cons e t =>
      rw [List.getLast?_cons_cons]
      rw [hq] at ih
      exact ih

/-- C5: the throttled drain loop executes tasks one at a time in FIFO
submission order (its event trace is exactly the FIFO trace of the submission
ids), settles every caller promise with that task own outcome (so a failure
rejects only that task and the rest still run), and emits the fixed delay only
between tasks: `n - 1` delays and never one after the last task. -/
theorem processQueue_spec (queue : List (Nat × Except String Nat)) :
    (RegistryApi.processQueue queue).1 = RegistryApi.fifoTrace (queue.map Prod.fst)
      ∧ (RegistryApi.processQueue queue).2 = queue
      ∧ (RegistryApi.processQueue queue).1.count RegistryApi.QEvent.delay = queue.length - 1
      ∧ (RegistryApi.processQueue queue).1.getLast? ≠ some RegistryApi.QEvent.delay :=
  ⟨processQueue_events queue, processQueue_settled queue,
   by rw [processQueue_events queue, fifoTrace_count_delay]; simp,
   by rw [processQueue_events queue]; exact fifoTrace_last_not_delay _⟩

set_option maxRecDepth 10000

/-- C6: pagination stops as soon as a page is not exactly `pageSize` long (one
final call, returning just that page), and against the 237-repository mock
catalog — pages of sizes [100, 100, 37] — it returns all 237 names in order
using exactly 3 throttled catalog calls. -/
theorem getAllRepositories_spec :
    (∀ (env : String → List String) (fuel : Nat) (last : String),
        (env last).length ≠ RegistryApi.pageSize →
        RegistryApi.getAllReposLoop env (fuel + 1) last = (env last, 1))
      ∧ RegistryApi.getAllRepositories
          (fun last => RegistryApi.catalogFromList RegistryApi.mockRegistry
            RegistryApi.pageSize last) 10
        = (RegistryApi.mockRegistry, 3)
      ∧ (RegistryApi.getAllRepositories
          (fun last => RegistryApi.catalogFromList RegistryApi.mockRegistry
            RegistryApi.pageSize last) 10).1.length = 237 := by
  refine ⟨?_, by decide, by decide⟩
  intro env fuel last h
  rw [RegistryApi.getAllReposLoop]
  by_cases h0 : (env last).length = 0
  · simp [h0]
  · simp [h0, h]

/-- C7: for every cache namespace and identifier, a save immediately followed
by a get returns the value while `now - timestamp` is within the 24-hour TTL;
once `now - timestamp > TTL` the get is a miss that deletes the stale entry
from backing storage (leaving every other key untouched). -/
theorem cache_save_get_spec (α : Type) (s : ImageCache.Store α)
    (ns identifier : String) (v : α) (tSave tRead : Nat) :
    (tRead - tSave ≤ ImageCache.CACHE_TTL →
      ImageCache.cacheGet
          (ImageCache.cacheSave s (ImageCache.getKey ns identifier) v tSave)
          (ImageCache.getKey ns identifier) tRead
        = (some v, ImageCache.cacheSave s (ImageCache.getKey ns identifier) v tSave))
    ∧ (tRead - tSave > ImageCache.CACHE_TTL →
      (ImageCache.cacheGet
          (ImageCache.cacheSave s (ImageCache.getKey ns identifier) v tSave)
          (ImageCache.getKey ns identifier) tRead).1 = none
      ∧ (ImageCache.cacheGet
          (ImageCache.cacheSave s (ImageCache.getKey ns identifier) v tSave)
          (ImageCache.getKey ns identifier) tRead).2 (ImageCache.getKey ns identifier)
          = none
      ∧ ∀ k, k ≠ ImageCache.getKey ns identifier →
          (ImageCache.cacheGet
            (ImageCache.cacheSave s (ImageCache.getKey ns identifier) v tSave)
            (ImageCache.getKey ns identifier) tRead).2 k = s k) := by
  generalize ImageCache.getKey ns identifier = key
  have hget : ImageCache.getItem (ImageCache.cacheSave s key v tSave) key
      = some ⟨v, tSave⟩ := by
    simp [ImageCache.getItem, ImageCache.cacheSave, ImageCache.setItem]
  constructor
  · intro h
    rw [ImageCache.cacheGet, hget]
    simp only
    rw [if_neg (not_lt.mpr h)]
  · intro h
    rw [ImageCache.cacheGet, hget]
    simp only
    rw [if_pos h]
    refine ⟨rfl, ?_, ?_⟩
    · simp [ImageCache.removeItem]
    · intro k hk
      simp [ImageCache.removeItem, ImageCache.cacheSave, ImageCache.setItem, hk]

/-- C7 witness: in the tags namespace, a value saved at time 0 is returned at
`CACHE_TTL` and is a miss at `CACHE_TTL + 1`. -/
theorem cache_save_get_spec_witness :
    ImageCache.cacheGet
        (ImageCache.cacheSave (ImageCache.emptyStore : ImageCache.Store Nat)
          (ImageCache.getKey "tags" "alpine") 7 0)
        (ImageCache.getKey "tags" "alpine") ImageCache.CACHE_TTL
      = (some 7,
         ImageCache.cacheSave (ImageCache.emptyStore : ImageCache.Store Nat)
           (ImageCache.getKey "tags" "alpine") 7 0)
    ∧ (ImageCache.cacheGet
        (ImageCache.cacheSave (ImageCache.emptyStore : ImageCache.Store Nat)
          (ImageCache.getKey "tags" "alpine") 7 0)
        (ImageCache.getKey "tags" "alpine") (ImageCache.CACHE_TTL + 1)).1 = none :=
  ⟨(cache_save_get_spec Nat ImageCache.emptyStore "tags" "alpine" 7 0
      ImageCache.CACHE_TTL).1 (by decide),
   ((cache_save_get_spec Nat ImageCache.emptyStore "tags" "alpine" 7 0
      (ImageCache.CACHE_TTL + 1)).2 (by decide)).1⟩

/-- C8 counterexample: a `reconnect` whose verification ping fails reports
not-connected but does NOT clear the stored credentials — so "credentials
cleared from the store" does not hold for failed reconnects. -/
theorem reconnect_keeps_store_counterexample :
    (UseRegistry.reconnect envDown stateWithStored ImageCache.emptyStore).2.2 = false
      ∧ (UseRegistry.reconnect envDown stateWithStored ImageCache.emptyStore).1.storeCreds
          = some credsSaved :=
  ⟨rfl, rfl⟩

/-- C8 (amended): when `connect` fails verification the partially saved
credentials are rolled back (cleared from the client and the store) and the
system does not report itself connected; when `reconnect` fails verification
the system also does not report itself connected (it returns `false`), though
the previously stored credentials are retained. -/
theorem connect_failure_rollback (registryUrl : String)
    (username password : Option String) (env : UseRegistry.ConnectEnv)
    (s : UseRegistry.RegState) (cache : ImageCache.Store (List String))
    (hping : isErr env.ping = true) (hconn : s.isConnected = false) :
    ((UseRegistry.connect registryUrl username password env s cache).1.isConnected = false
      ∧ (UseRegistry.connect registryUrl username password env s cache).1.apiCreds = none
      ∧ (UseRegistry.connect registryUrl username password env s cache).1.storeCreds = none
      ∧ (UseRegistry.connect registryUrl username password env s cache).2.2.success = false)
    ∧ ((UseRegistry.reconnect env s cache).1.isConnected = false
      ∧ (UseRegistry.reconnect env s cache).2.2 = false) := by
  cases hp : env.ping with
  | ok u => rw [hp] at hping; simp [isErr] at hping
  | error e =>
    constructor
    · cases hsv : env.saveResult with
      | error e2 => simp [UseRegistry.connect, hsv, hconn]
      | ok method =>
        simp [UseRegistry.connect, hsv, UseRegistry.testConnection, hp, hconn]
    · cases hsc : s.storeCreds with
      | none => simp [UseRegistry.reconnect, hsc, hconn]
      | some c =>
        simp [UseRegistry.reconnect, hsc, UseRegistry.testConnection, hp, hconn]

/-- C8 witness: a concrete failed connect against `envDown` rolls the
credentials back and reports not connected, and the matching reconnect reports
`false`. -/
theorem connect_failure_rollback_witness :
    ((UseRegistry.connect "https://registry.example.com" (some "alice") (some "secret")
        envDown stateWithStored ImageCache.emptyStore).1.isConnected = false
      ∧ (UseRegistry.connect "https://registry.example.com" (some "alice") (some "secret")
          envDown stateWithStored ImageCache.emptyStore).1.apiCreds = none
      ∧ (UseRegistry.connect "https://registry.example.com" (some "alice") (some "secret")
          envDown stateWithStored ImageCache.emptyStore).1.storeCreds = none
      ∧ (UseRegistry.connect "https://registry.example.com" (some "alice") (some "secret")
          envDown stateWithStored ImageCache.emptyStore).2.2.success = false)
    ∧ ((UseRegistry.reconnect envDown stateWithStored ImageCache.emptyStore).1.isConnected = false
      ∧ (UseRegistry.reconnect envDown stateWithStored ImageCache.emptyStore).2.2 = false) :=
  connect_failure_rollback "https://registry.example.com" (some "alice") (some "secret")
    envDown stateWithStored ImageCache.emptyStore rfl rfl

/-- C9 counterexample: with a cold state and cache and a failing registry,
`loadTags` resolves with `Except.ok []` — the network error is swallowed and
converted to an empty result, not surfaced unmodified as the operation
failure outcome. -/
theorem loadTags_swallows_error_counterexample :
    (UseRegistry.loadTags "alpine"
        (Except.error "Registry API error: 503 Service Unavailable") 0 []
        ImageCache.emptyStore).1
      = Except.ok [] := rfl

/-- C9 (amended): on a registry failure the read-through operations catch the
error instead of surfacing it: `loadTags` returns `[]` (recording `[]` in the
reactive state) and `loadImageInfo` returns null; in both cases the failed
result is not written to the Cache Store and exactly one registry call is
made (no automatic retry). -/
theorem load_failure_not_cached (repository tag : String)
    (fetchTags : Except String UseRegistry.TagsResponse) (fenv : FetchEnv)
    (now : Nat) (stateTags : List (String × List String))
    (stateInfos : List (String × ImageInfo))
    (stateManifests : List (String × Manifest))
    (tcache : ImageCache.Store (List String)) (icache : ImageCache.Store ImageInfo)
    (emsg1 emsg2 : String)
    (hst : UseRegistry.lookupAssoc stateTags repository = none)
    (ht : fetchTags = Except.error emsg1)
    (htc : tcache (ImageCache.getKey "tags" repository) = none)
    (hsi : UseRegistry.lookupAssoc stateInfos (repository ++ ":" ++ tag) = none)
    (hmf : fenv.fetchManifest repository tag = Except.error emsg2)
    (hic : icache (ImageCache.getKey "image_info" (repository ++ ":" ++ tag)) = none) :
    UseRegistry.loadTags repository fetchTags now stateTags tcache
        = (Except.ok [], (repository, []) :: stateTags, tcache, 1)
      ∧ UseRegistry.loadImageInfo repository tag fenv now stateInfos stateManifests icache
        = (Except.ok none, stateInfos, stateManifests, icache, 1) := by
  constructor
  · have hread : ImageCache.getTags tcache repository now = (none, tcache) := by
      rw [ImageCache.getTags, ImageCache.cacheGet, ImageCache.getItem, htc]
    rw [UseRegistry.loadTags, hst, hread, ht]
  · have hread : ImageCache.getImageInfo icache repository tag now = (none, icache) := by
      rw [ImageCache.getImageInfo, ImageCache.cacheGet, ImageCache.getItem, hic]
    have hinfo : RegistryApi.getImageInfo repository tag fenv = Except.error emsg2 := by
      rw [RegistryApi.getImageInfo, hmf]
      rfl
    rw [UseRegistry.loadImageInfo, hsi, hread, hinfo]

/-- C9 witness: the concrete cold-start failure — `loadTags` yields `[]` and
`loadImageInfo` yields null, caches untouched, one registry call each. -/
theorem load_failure_not_cached_witness :
    UseRegistry.loadTags "alpine"
        (Except.error "Registry API error: 503 Service Unavailable") 0 []
        ImageCache.emptyStore
      = (Except.ok [], [("alpine", [])], ImageCache.emptyStore, 1)
    ∧ UseRegistry.loadImageInfo "alpine" "3.19" envOffline 0 [] [] ImageCache.emptyStore
      = (Except.ok none, [], [], ImageCache.emptyStore, 1) :=
  load_failure_not_cached "alpine" "3.19"
    (Except.error "Registry API error: 503 Service Unavailable") envOffline 0 [] [] []
    ImageCache.emptyStore ImageCache.emptyStore
    "Registry API error: 503 Service Unavailable"
    "Registry API error: 503 Service Unavailable"
    rfl rfl rfl rfl rfl rfl

end RegistryLens
